import Mathlib

/-!
Verification of the inventory-tracker backend and frontend logic:
the validation middleware (`Backend/src/middleware/validation.js`),
the product controller (`Backend/src/controllers/productController.js`),
the Sequelize product model defaults (`Backend/src/models/product.js`),
and the client-side dashboard search filter and statistics aggregator.

JavaScript dynamic values are embedded as the inductive `JSValue`;
JS numbers are modelled as rationals, with NaN a separate constructor.
-/

namespace Inventory

/-- A JavaScript value as it can appear in a parsed JSON request body
(objects and arrays are not needed by the code under study). -/
inductive JSValue where
  | undef
  | null
  | bool (b : Bool)
  | num (q : ℚ)
  | nan
  | str (s : String)
  deriving DecidableEq, Repr

/-- JS truthiness: `undefined`, `null`, `false`, `0`, `NaN` and `""` are falsy. -/
def jsTruthy : JSValue → Bool
  | .undef => false
  | .null => false
  | .bool b => b
  | .num q => q != 0
  | .nan => false
  | .str s => s != ""

/-- Whether a value is a string (strings are the only values with `.trim()`). -/
def JSValue.isStr : JSValue → Bool
  | .str _ => true
  | _ => false

/-- JS whitespace for `String.prototype.trim` (the characters the program can
meet in practice). -/
def isWS (c : Char) : Bool :=
  c = ' ' || c = '\t' || c = '\n' || c = '\r'

/-- JS `s.trim()`: strip leading and trailing whitespace. -/
def jsTrim (s : String) : String :=
  String.mk (((s.data.dropWhile isWS).reverse.dropWhile isWS).reverse)

/-- Value of a list of decimal digits; `some 0` on the empty list, `none` on a
non-digit, matching how JS reads the integer and fraction parts of a numeric
literal (empty parts contribute 0). -/
def digitsVal (ds : List Char) : Option ℕ :=
  ds.foldl
    (fun acc c => acc.bind fun n =>
      if c.isDigit then some (10 * n + (c.toNat - 48)) else none)
    (some 0)

/-- Parse an unsigned decimal literal `digits [. digits]` (at least one digit
somewhere), as JS `Number` does for plain decimal strings. -/
def parseDec (l : List Char) : Option ℚ :=
  let intPart := l.takeWhile (fun c => c ≠ '.')
  let rest := l.dropWhile (fun c => c ≠ '.')
  match rest with
  | [] => if intPart.isEmpty then none else (digitsVal intPart).map (fun n => (n : ℚ))
  | _ :: frac =>
    if frac.any (fun c => c = '.') then none
    else if intPart.isEmpty && frac.isEmpty then none
    else
      (digitsVal intPart).bind fun i =>
        (digitsVal frac).map fun f =>
          (i : ℚ) + (f : ℚ) / ((10 : ℚ) ^ frac.length)

/-- JS `Number(string)`: whitespace-only strings coerce to `0`; otherwise an
optionally signed decimal literal; anything else is NaN (`none`).
(Exponent and hex forms are not used by the program and are not modelled.) -/
def strToNum (s : String) : Option ℚ :=
  let t := jsTrim s
  if t = "" then some 0
  else
    match t.data with
    | '-' :: rest => (parseDec rest).map (fun q => -q)
    | '+' :: rest => parseDec rest
    | l => parseDec l

/-- JS `Number(v)` (ToNumber coercion); `none` stands for NaN. -/
def toNumber : JSValue → Option ℚ
  | .undef => none
  | .null => some 0
  | .bool b => some (if b then 1 else 0)
  | .num q => some q
  | .nan => none
  | .str s => strToNum s

/-- JS `isNaN(v)`: coerce to number, test for NaN. -/
def jsIsNaN (v : JSValue) : Bool :=
  (toNumber v).isNone

/-- JS `Number(v) < 0` (false when the coercion yields NaN). -/
def numNeg (v : JSValue) : Bool :=
  match toNumber v with
  | some q => q < 0
  | none => false

/-- The shared shape of the price and quantity checks in `validateProduct`:
`v === undefined || v === null || isNaN(v) || Number(v) < 0`. -/
def numFieldBad (v : JSValue) : Bool :=
  v == .undef || v == .null || jsIsNaN v || numNeg v

/-- The name check `!name || name.trim() === ''`.
`none` means the check itself throws a TypeError (`.trim` is called on a
truthy non-string); `some b` reports whether the name violation is pushed. -/
def nameCheck : JSValue → Option Bool
  | .str s => some (s == "" || jsTrim s == "")
  | v => if jsTruthy v then none else some true

/-- Outcome of the `validateProduct` middleware. -/
inductive GateResult where
  | thrown
  | reject (status : ℕ) (errors : List String)
  | ok
  deriving DecidableEq, Repr

def nameMsg : String := "Name is required"
def priceMsg : String := "Price must be a valid non-negative number"
def qtyMsg : String := "Quantity must be a valid non-negative integer"

/-- The middleware `validateProduct` from `Backend/src/middleware/validation.js`:
collects violations for name, price and quantity in order; responds
`400 {errors}` when any were collected, otherwise passes control on. -/
def validateProduct (name price quantity : JSValue) : GateResult :=
  match nameCheck name with
  | none => .thrown
  | some nameBad =>
    let errors : List String := []
    let errors := if nameBad then errors ++ [nameMsg] else errors
    let errors := if numFieldBad price then errors ++ [priceMsg] else errors
    let errors := if numFieldBad quantity then errors ++ [qtyMsg] else errors
    if errors.length > 0 then .reject 400 errors else .ok

/-- The violation list carried by a gate outcome (empty for `ok`/`thrown`). -/
def gateErrors : GateResult → List String
  | .reject _ es => es
  | _ => []

example : validateProduct (.str "x") (.num 1) (.num 2) = .ok := by decide
example : validateProduct (.undef) (.num 1) (.num 2) = .reject 400 [nameMsg] := by decide
example : validateProduct (.num 123) (.num 1) (.num 2) = .thrown := by decide
example : validateProduct (.str "x") (.str "") (.str "") = .ok := by decide
example : validateProduct (.str " ") (.num (-1)) (.undef) =
    .reject 400 [nameMsg, priceMsg, qtyMsg] := by decide
example : validateProduct (.str "x") (.num 1) (.num (mkRat 5 2)) = .ok := by decide

/-- A row of the `Products` table (`Backend/src/models/product.js`):
`price` is `DECIMAL(10,2)` (a rational here), `quantity` an `INTEGER`,
`createdAt`/`updatedAt` the Sequelize timestamps (abstract instants). -/
structure StoredProduct where
  id : ℕ
  name : String
  description : Option String
  price : ℚ
  image : String
  quantity : ℤ
  createdAt : ℕ
  updatedAt : ℕ
  deriving DecidableEq, Repr

/-- The placeholder URL the model uses when `image` is absent. -/
def placeholderImage : String := "https://via.placeholder.com/150"

/-- The database table. -/
abbrev Store := List StoredProduct

/-- A parsed JSON request body for create/update: each product field may be
absent. (`id` is taken from the URL, never from the body.) -/
structure Body where
  name : Option String := none
  description : Option String := none
  price : Option ℚ := none
  image : Option String := none
  quantity : Option ℤ := none
  deriving DecidableEq, Repr

/-- A body field holding an optional string, as the JS value the middleware
destructures: absent fields read as `undefined`. -/
def optStrJS : Option String → JSValue
  | none => .undef
  | some s => .str s

/-- A body field holding an optional number, as the JS value the middleware
destructures. -/
def optNumJS : Option ℚ → JSValue
  | none => .undef
  | some q => .num q

/-- A body field holding an optional integer, as the JS value the middleware
destructures. -/
def optIntJS : Option ℤ → JSValue
  | none => .undef
  | some z => .num (z : ℚ)

/-- The `validateProduct` middleware applied to a parsed request body. -/
def validateBody (b : Body) : GateResult :=
  validateProduct (optStrJS b.name) (optNumJS b.price) (optIntJS b.quantity)

/-- An HTTP response the product routes can produce. -/
inductive ApiResponse where
  | okProduct (p : StoredProduct)
  | okNull
  | okList (ps : List StoredProduct)
  | okMsg (message : String)
  | created (p : StoredProduct)
  | badRequest (errors : List String)
  | notFound (error : String)
  | serverError (error : String)
  deriving DecidableEq, Repr

/-- The HTTP status attached to each response shape. -/
def ApiResponse.status : ApiResponse → ℕ
  | .okProduct _ => 200
  | .okNull => 200
  | .okList _ => 200
  | .okMsg _ => 200
  | .created _ => 201
  | .badRequest _ => 400
  | .notFound _ => 404
  | .serverError _ => 500

/-- Insertion via `Product.create(req.body)`: `name` and `price` have `allowNull: false`
and no default, so the insert fails without them; `image` defaults to the
placeholder URL and `quantity` to `0`; both timestamps are set to `now`.
The fresh id is supplied by the table's auto-increment counter. -/
def createRecord (b : Body) (nextId : ℕ) (now : ℕ) : Option StoredProduct :=
  match b.name, b.price with
  | some nm, some pr =>
    some
      { id := nextId
        name := nm
        description := b.description
        price := pr
        image := b.image.getD placeholderImage
        quantity := (b.quantity.getD 0)
        createdAt := now
        updatedAt := now }
  | _, _ => none

/-- Route `POST /products`: the validation middleware runs first; on `next()` the
controller calls `Product.create` and answers `201` with the stored row.
A middleware exception or a failed insert reaches an error path answering
`500`. -/
def postProduct (s : Store) (b : Body) (nextId : ℕ) (now : ℕ) :
    ApiResponse × Store :=
  match validateBody b with
  | .reject _ es => (.badRequest es, s)
  | .thrown => (.serverError "Something broke!", s)
  | .ok =>
    match createRecord b nextId now with
    | some r => (.created r, s ++ [r])
    | none => (.serverError "Failed to create product", s)

/-- Fields of `b` present in the body overwrite those of `r`;
`updatedAt` is refreshed (Sequelize timestamps). -/
def applyBody (r : StoredProduct) (b : Body) (now : ℕ) : StoredProduct :=
  { r with
    name := b.name.getD r.name
    description := match b.description with
      | some d => some d
      | none => r.description
    price := b.price.getD r.price
    image := b.image.getD r.image
    quantity := b.quantity.getD r.quantity
    updatedAt := now }

/-- Lookup `Product.findByPk(id)`: the row with that primary key, if any. -/
def findByPk (s : Store) (id : ℕ) : Option StoredProduct :=
  (s.filter (fun r => r.id = id)).head?

/-- Route `PUT /products/:id`: validation middleware first; then
`Product.update(req.body, { where: { id } })` returns the count of affected
rows; a truthy count leads to `res.json(await Product.findByPk(id))`,
otherwise `404`. -/
def putProduct (s : Store) (id : ℕ) (b : Body) (now : ℕ) :
    ApiResponse × Store :=
  match validateBody b with
  | .reject _ es => (.badRequest es, s)
  | .thrown => (.serverError "Something broke!", s)
  | .ok =>
    let updated := s.countP (fun r => r.id = id)
    if updated ≠ 0 then
      let s' := s.map (fun r => if r.id = id then applyBody r b now else r)
      match findByPk s' id with
      | some p => (.okProduct p, s')
      | none => (.okNull, s')
    else (.notFound "Product not found", s)

/-- Route `DELETE /products/:id`: `Product.destroy({ where: { id } })` returns the
count of deleted rows; a truthy count answers a confirmation, otherwise
`404`. -/
def deleteProduct (s : Store) (id : ℕ) : ApiResponse × Store :=
  let deleted := s.countP (fun r => r.id = id)
  if deleted ≠ 0 then
    (.okMsg "Product deleted successfully", s.filter (fun r => ¬ r.id = id))
  else (.notFound "Product not found", s)

/-- The row order produced by `findAll({ order: [[createdAt, DESC]] })`:
newer rows first. -/
def newerFirst (a b : StoredProduct) : Prop :=
  b.createdAt ≤ a.createdAt

instance : DecidableRel newerFirst := fun a b =>
  inferInstanceAs (Decidable (b.createdAt ≤ a.createdAt))

instance : IsTotal StoredProduct newerFirst :=
  ⟨fun a b => le_total b.createdAt a.createdAt⟩

instance : IsTrans StoredProduct newerFirst :=
  ⟨fun _ _ _ hab hbc => le_trans hbc hab⟩

/-- Route `GET /products`: `Product.findAll({ order: [[createdAt, DESC]] })` — the
whole table, sorted by creation time, newest first (modelled with a sort
the database is free to choose). -/
def getAllProducts (s : Store) : List StoredProduct :=
  List.insertionSort newerFirst s

/-- A product as the frontend sees it (`Frontend/src/types/Product.ts`):
`description` is optional; `price` and `quantity` are JS numbers, and the
dashboard's `Number(...)` coercions are the identity on them. -/
structure FProduct where
  name : String
  description : Option String
  price : ℚ
  quantity : ℚ
  deriving DecidableEq, Repr

/-- JS `s.toLowerCase()` (ASCII range, which is all the program compares). -/
def jsToLower (s : String) : String :=
  String.mk (s.data.map Char.toLower)

/-- Whether `pat` is an initial run of `s`. -/
def leadsWith : List Char → List Char → Bool
  | [], _ => true
  | _ :: _, [] => false
  | a :: as, b :: bs => a == b && leadsWith as bs

/-- Whether `pat` occurs contiguously inside `s`. -/
def hasSub (s pat : List Char) : Bool :=
  if leadsWith pat s then true
  else
    match s with
    | [] => false
    | _ :: rest => hasSub rest pat

/-- JS `s.includes(pat)`. -/
def jsIncludes (s pat : String) : Bool :=
  hasSub s.data pat.data

/-- Whether a product matches a (lower-cased) search term in the dashboard
filter: by name, or by description when one is present
(`description?.toLowerCase().includes(term)`, undefined being falsy). -/
def matchesSearch (term : String) (p : FProduct) : Bool :=
  jsIncludes (jsToLower p.name) term ||
    (match p.description with
     | some d => jsIncludes (jsToLower d) term
     | none => false)

/-- The dashboard computation `filteredProducts`: a blank search term keeps the
whole list; otherwise keep the products matching the lower-cased term. -/
def filteredProducts (searchTerm : String) (products : List FProduct) :
    List FProduct :=
  if jsTrim searchTerm == "" then products
  else products.filter (matchesSearch (jsToLower searchTerm))

/-- The summary record the dashboard derives from the product list. -/
structure DashboardStats where
  totalProducts : ℕ
  totalValue : ℚ
  lowStockCount : ℕ
  totalQuantity : ℚ
  deriving DecidableEq, Repr

/-- The dashboard computation `stats`: count, total inventory value (a `reduce`
starting at 0), count of products with quantity under 5, total quantity. -/
def stats (products : List FProduct) : DashboardStats :=
  { totalProducts := products.length
    totalValue := products.foldl (fun sum p => sum + p.price * p.quantity) 0
    lowStockCount := (products.filter (fun p => p.quantity < 5)).length
    totalQuantity := products.foldl (fun sum p => sum + p.quantity) 0 }

example :
    stats [⟨"a", none, 10, 2⟩, ⟨"b", none, 5, 10⟩] =
      { totalProducts := 2, totalValue := 70, lowStockCount := 1,
        totalQuantity := 12 } := by
  simp [stats, List.foldl, List.filter]
  norm_num

example :
    filteredProducts "xyz" [⟨"abc", some "xyz", 1, 1⟩] =
      [⟨"abc", some "xyz", 1, 1⟩] := by decide

/-! ### Helper lemmas about the validation gate -/

/-- When the name check does not throw, the gate's outcome is determined by
the three per-field checks: the collected list is their concatenation in
source order, and the gate rejects with 400 exactly when it is non-empty. -/
theorem validateProduct_spec (name price quantity : JSValue) (nb : Bool)
    (hn : nameCheck name = some nb) :
    validateProduct name price quantity =
      (if (if nb then [nameMsg] else []) ++
          (if numFieldBad price then [priceMsg] else []) ++
          (if numFieldBad quantity then [qtyMsg] else []) = [] then .ok
       else .reject 400
          ((if nb then [nameMsg] else []) ++
           (if numFieldBad price then [priceMsg] else []) ++
           (if numFieldBad quantity then [qtyMsg] else []))) := by
  unfold validateProduct
  rw [hn]
  cases nb <;> cases hp : numFieldBad price <;> cases hq : numFieldBad quantity <;> simp

theorem gateErrors_validateProduct (name price quantity : JSValue) (nb : Bool)
    (hn : nameCheck name = some nb) :
    gateErrors (validateProduct name price quantity) =
      (if nb then [nameMsg] else []) ++
      (if numFieldBad price then [priceMsg] else []) ++
      (if numFieldBad quantity then [qtyMsg] else []) := by
  rw [validateProduct_spec name price quantity nb hn]
  cases nb <;> cases hp : numFieldBad price <;> cases hq : numFieldBad quantity <;>
    simp [gateErrors]

theorem nameMsg_ne_priceMsg : nameMsg ≠ priceMsg := by decide
theorem nameMsg_ne_qtyMsg : nameMsg ≠ qtyMsg := by decide
theorem priceMsg_ne_qtyMsg : priceMsg ≠ qtyMsg := by decide

/-- Membership of the price violation in the collected list is exactly the
price check. -/
theorem priceMsg_mem_iff (name price quantity : JSValue) (nb : Bool)
    (hn : nameCheck name = some nb) :
    priceMsg ∈ gateErrors (validateProduct name price quantity) ↔
      numFieldBad price = true := by
  rw [gateErrors_validateProduct name price quantity nb hn]
  cases nb <;> cases hp : numFieldBad price <;> cases hq : numFieldBad quantity <;>
    simp [nameMsg_ne_priceMsg.symm, priceMsg_ne_qtyMsg]

/-- Membership of the quantity violation in the collected list is exactly the
quantity check. -/
theorem qtyMsg_mem_iff (name price quantity : JSValue) (nb : Bool)
    (hn : nameCheck name = some nb) :
    qtyMsg ∈ gateErrors (validateProduct name price quantity) ↔
      numFieldBad quantity = true := by
  rw [gateErrors_validateProduct name price quantity nb hn]
  cases nb <;> cases hp : numFieldBad price <;> cases hq : numFieldBad quantity <;>
    simp [nameMsg_ne_qtyMsg.symm, priceMsg_ne_qtyMsg.symm]

/-- Membership of the name violation in the collected list is exactly the
name check. -/
theorem nameMsg_mem_iff (name price quantity : JSValue) (nb : Bool)
    (hn : nameCheck name = some nb) :
    nameMsg ∈ gateErrors (validateProduct name price quantity) ↔ nb = true := by
  rw [gateErrors_validateProduct name price quantity nb hn]
  cases nb <;> cases hp : numFieldBad price <;> cases hq : numFieldBad quantity <;>
    simp [nameMsg_ne_priceMsg, nameMsg_ne_qtyMsg]

/-- The semantic content of the shared numeric check. -/
theorem numFieldBad_iff (v : JSValue) :
    numFieldBad v = true ↔
      v = .undef ∨ v = .null ∨ toNumber v = none ∨
        ∃ x, toNumber v = some x ∧ x < 0 := by
  unfold numFieldBad jsIsNaN numNeg
  cases hv : toNumber v <;> simp [hv, or_assoc]

/-- A gate that lets a request through found all three checks clean. -/
theorem validateProduct_ok_iff (name price quantity : JSValue) :
    validateProduct name price quantity = .ok ↔
      nameCheck name = some false ∧ numFieldBad price = false ∧
        numFieldBad quantity = false := by
  constructor
  · intro h
    cases hn : nameCheck name with
    | none => simp [validateProduct, hn] at h
    | some nb =>
      rw [validateProduct_spec name price quantity nb hn] at h
      cases nb <;> cases hp : numFieldBad price <;> cases hq : numFieldBad quantity <;>
        simp [hp, hq] at h ⊢
  · rintro ⟨hn, hp, hq⟩
    rw [validateProduct_spec name price quantity false hn]
    simp [hp, hq]

/-- The name check returns a value on every payload whose name field is not a
truthy non-string. -/
theorem nameCheck_total (v : JSValue) (h : (jsTruthy v && !v.isStr) = false) :
    ∃ nb, nameCheck v = some nb := by
  cases v <;> simp_all [nameCheck, jsTruthy, JSValue.isStr]

/-! ### Claim C2 -/

/-- C2, counterexample: on the payload `{name: 123, price: 10, quantity: 3}`
the gate calls `.trim()` on the number `123` and raises a TypeError instead
of returning a structured result, so the gate does not tolerate every type
in the name field. -/
theorem gate_throws_on_numeric_name :
    validateProduct (.num 123) (.num 10) (.num 3) = .thrown := by decide

/-- C2, amended: for every payload whose name field is not a truthy
non-string, the gate returns a structured result — acceptance, or a 400
rejection carrying a non-empty violation list. (Being a pure function of the
three fields, it touches no state.) -/
theorem gate_structured_unless_truthy_nonstring_name :
    ∀ name price quantity : JSValue, (jsTruthy name && !name.isStr) = false →
      validateProduct name price quantity = .ok ∨
        ∃ es, validateProduct name price quantity = .reject 400 es ∧ es ≠ [] := by
  intro name price quantity h
  obtain ⟨nb, hn⟩ := nameCheck_total name h
  rw [validateProduct_spec name price quantity nb hn]
  cases nb <;> cases hp : numFieldBad price <;> cases hq : numFieldBad quantity <;>
    simp

/-- C2, witness: the amended statement applied to a concrete payload. -/
theorem gate_structured_witness :
    validateProduct (.str "pen") (.num 2) (.num 7) = .ok ∨
      ∃ es, validateProduct (.str "pen") (.num 2) (.num 7) = .reject 400 es ∧
        es ≠ [] :=
  gate_structured_unless_truthy_nonstring_name (.str "pen") (.num 2) (.num 7)
    (by decide)

/-! ### Claim C3 -/

/-- C3, counterexample: the non-integral quantity `5/2` is accepted without
any violation, although the claim requires the quantity violation on every
non-integral quantity: the gate never checks integrality. -/
theorem gate_accepts_noninteger_quantity :
    validateProduct (.str "x") (.num 1) (.num (mkRat 5 2)) = .ok := by decide

/-- C3, amended: whenever the gate returns a result, the quantity violation
is collected exactly when the quantity field is missing (`undefined` or
`null`), coerces to NaN, or coerces to a negative number; every quantity
coercing to a non-negative number — integral or not — yields no quantity
violation. -/
theorem quantity_violation_characterization :
    ∀ (name price quantity : JSValue) (nb : Bool), nameCheck name = some nb →
      (qtyMsg ∈ gateErrors (validateProduct name price quantity) ↔
        quantity = .undef ∨ quantity = .null ∨ toNumber quantity = none ∨
          ∃ x, toNumber quantity = some x ∧ x < 0) := by
  intro name price quantity nb hn
  exact (qtyMsg_mem_iff name price quantity nb hn).trans (numFieldBad_iff quantity)

/-- C3, witness: the characterization applied to a concrete missing
quantity. -/
theorem quantity_violation_witness :
    qtyMsg ∈ gateErrors (validateProduct (.str "x") (.num 1) .undef) ↔
      JSValue.undef = .undef ∨ JSValue.undef = .null ∨
        toNumber .undef = none ∨ ∃ x, toNumber .undef = some x ∧ x < 0 :=
  quantity_violation_characterization (.str "x") (.num 1) .undef false (by decide)

/-! ### Claim C4 -/

/-- C4, counterexample: with the payload `{name: 1, price: -1, quantity: -1}`
the gate raises before checking price and quantity, so it does not check all
three rules on every payload, and the request is not rejected with 400
carrying the violation list (the thrown error surfaces as a 500). -/
theorem gate_skips_rules_when_throwing :
    validateProduct (.num 1) (.num (-1)) (.num (-1)) = .thrown ∧
      gateErrors (validateProduct (.num 1) (.num (-1)) (.num (-1))) = [] := by
  decide

/-- C4, amended: whenever the name check does not throw, all three rules are
checked and every violation is collected (each message appears exactly when
its rule fails, regardless of the other rules), a non-empty list is sent as
a 400 rejection carrying the full list, and a rejected create or update
leaves the store untouched. -/
theorem gate_collects_all_violations :
    (∀ (name price quantity : JSValue) (nb : Bool), nameCheck name = some nb →
      (nameMsg ∈ gateErrors (validateProduct name price quantity) ↔ nb = true) ∧
      (priceMsg ∈ gateErrors (validateProduct name price quantity) ↔
        numFieldBad price = true) ∧
      (qtyMsg ∈ gateErrors (validateProduct name price quantity) ↔
        numFieldBad quantity = true) ∧
      (gateErrors (validateProduct name price quantity) ≠ [] →
        validateProduct name price quantity =
          .reject 400 (gateErrors (validateProduct name price quantity)))) ∧
    (∀ (s : Store) (b : Body) (nextId now i st : ℕ) (es : List String),
      validateBody b = .reject st es →
      postProduct s b nextId now = (.badRequest es, s) ∧
      putProduct s i b now = (.badRequest es, s)) := by
  constructor
  · intro name price quantity nb hn
    refine ⟨nameMsg_mem_iff name price quantity nb hn,
      priceMsg_mem_iff name price quantity nb hn,
      qtyMsg_mem_iff name price quantity nb hn, ?_⟩
    intro hne
    rw [gateErrors_validateProduct name price quantity nb hn] at hne ⊢
    rw [validateProduct_spec name price quantity nb hn, if_neg hne]
  · intro s b nextId now i st es h
    constructor
    · simp [postProduct, h]
    · simp [putProduct, h]

/-- C4, witness: the amended statement at a concrete payload failing the
price and quantity rules but not the name rule, and at a concrete rejected
body. -/
theorem gate_collects_all_violations_witness :
    ((nameMsg ∈ gateErrors (validateProduct (.str "x") (.num (-1)) .undef) ↔
        false = true) ∧
      (priceMsg ∈ gateErrors (validateProduct (.str "x") (.num (-1)) .undef) ↔
        numFieldBad (.num (-1)) = true) ∧
      (qtyMsg ∈ gateErrors (validateProduct (.str "x") (.num (-1)) .undef) ↔
        numFieldBad .undef = true) ∧
      (gateErrors (validateProduct (.str "x") (.num (-1)) .undef) ≠ [] →
        validateProduct (.str "x") (.num (-1)) .undef =
          .reject 400 (gateErrors (validateProduct (.str "x") (.num (-1)) .undef)))) ∧
    (postProduct [] {} 1 0 = (.badRequest [nameMsg, priceMsg, qtyMsg], []) ∧
      putProduct [] 1 {} 0 = (.badRequest [nameMsg, priceMsg, qtyMsg], [])) :=
  ⟨gate_collects_all_violations.1 (.str "x") (.num (-1)) .undef false (by decide),
    gate_collects_all_violations.2 [] {} 1 0 1 400 [nameMsg, priceMsg, qtyMsg]
      (by decide)⟩

/-! ### Claim C10 -/

/-- C10: an empty-string price or quantity slips through its check — the
gate treats `""` as the number 0 — and `{name: "a", price: "", quantity: ""}`
passes validation outright. -/
theorem empty_string_passes_numeric_checks :
    ∀ name price quantity : JSValue,
      (price = .str "" →
        priceMsg ∉ gateErrors (validateProduct name price quantity)) ∧
      (quantity = .str "" →
        qtyMsg ∉ gateErrors (validateProduct name price quantity)) ∧
      validateProduct (.str "a") (.str "") (.str "") = .ok := by
  intro name price quantity
  cases hn : nameCheck name with
  | none =>
    refine ⟨?_, ?_, by decide⟩ <;>
      intro h <;> simp [validateProduct, hn, gateErrors]
  | some nb =>
    refine ⟨?_, ?_, by decide⟩
    · intro h
      rw [priceMsg_mem_iff name price quantity nb hn, h]
      decide
    · intro h
      rw [qtyMsg_mem_iff name price quantity nb hn, h]
      decide

/-- C10, witness: the statement at the concrete all-empty-string payload. -/
theorem empty_string_passes_witness :
    priceMsg ∉ gateErrors (validateProduct (.str "a") (.str "") (.str "")) ∧
      qtyMsg ∉ gateErrors (validateProduct (.str "a") (.str "") (.str "")) :=
  ⟨(empty_string_passes_numeric_checks (.str "a") (.str "") (.str "")).1 rfl,
    (empty_string_passes_numeric_checks (.str "a") (.str "") (.str "")).2.1 rfl⟩

/-! ### Claim C5 -/

/-- A left fold adding `f x` at each step computes the exact sum of the
mapped list (the dashboard's `reduce` pattern). -/
theorem foldl_add_map_sum {α : Type} (f : α → ℚ) (l : List α) :
    ∀ a : ℚ, l.foldl (fun s x => s + f x) a = a + (l.map f).sum := by
  induction l with
  | nil => intro a; simp
  | cons x xs ih =>
    intro a
    simp [ih]
    ring

/-- C5: the aggregator returns the record count, the exact (unrounded) sum
of price times quantity, the count of products with quantity strictly below
5, and the sum of quantities; on the two-product example it yields 70, 12,
2 and 1. -/
theorem stats_aggregator_correct :
    (∀ ps : List FProduct,
      (stats ps).totalProducts = ps.length ∧
      (stats ps).totalValue = (ps.map (fun p => p.price * p.quantity)).sum ∧
      (stats ps).lowStockCount = ps.countP (fun p => p.quantity < 5) ∧
      (stats ps).totalQuantity = (ps.map (fun p => p.quantity)).sum) ∧
    stats [⟨"a", none, 10, 2⟩, ⟨"b", none, 5, 10⟩] =
      { totalProducts := 2, totalValue := 70, lowStockCount := 1,
        totalQuantity := 12 } := by
  constructor
  · intro ps
    refine ⟨rfl, ?_, ?_, ?_⟩
    · simpa using foldl_add_map_sum (fun p : FProduct => p.price * p.quantity) ps 0
    · simp [stats, List.countP_eq_length_filter]
    · simpa using foldl_add_map_sum (fun p : FProduct => p.quantity) ps 0
  · simp [stats, List.foldl, List.filter]
    norm_num

/-! ### Claim C6 -/

/-- C6, counterexample: searching for a term occurring only in a product's
description still returns that product, although its name does not contain
the term — the filter is not a filter on names alone. -/
theorem filter_matches_description_too :
    filteredProducts "xyz" [⟨"abc", some "xyz", 1, 1⟩] =
        [⟨"abc", some "xyz", 1, 1⟩] ∧
      jsIncludes (jsToLower "abc") (jsToLower "xyz") = false := by decide

/-- C6, amended: a blank search term returns the list unchanged; otherwise
the filter keeps exactly the products whose name or description contains
the lower-cased term, and in all cases the result is a sublist of the
input, preserving the original order. -/
theorem filteredProducts_spec :
    ∀ (term : String) (ps : List FProduct),
      (jsTrim term = "" → filteredProducts term ps = ps) ∧
      (jsTrim term ≠ "" →
        filteredProducts term ps = ps.filter (matchesSearch (jsToLower term))) ∧
      (filteredProducts term ps).Sublist ps := by
  intro term ps
  refine ⟨fun h => by simp [filteredProducts, h],
    fun h => by simp [filteredProducts, h], ?_⟩
  by_cases h : jsTrim term = ""
  · simp [filteredProducts, h]
  · have heq : filteredProducts term ps =
        ps.filter (matchesSearch (jsToLower term)) := by
      simp [filteredProducts, h]
    rw [heq]
    exact List.filter_sublist ps

/-- C6, witness: the amended statement at a concrete term and list. -/
theorem filteredProducts_witness :
    filteredProducts "b" [⟨"Book", none, 1, 1⟩, ⟨"pen", some "blue", 2, 2⟩] =
        List.filter (matchesSearch (jsToLower "b"))
          [⟨"Book", none, 1, 1⟩, ⟨"pen", some "blue", 2, 2⟩] ∧
      (filteredProducts "b"
          [⟨"Book", none, 1, 1⟩, ⟨"pen", some "blue", 2, 2⟩]).Sublist
        [⟨"Book", none, 1, 1⟩, ⟨"pen", some "blue", 2, 2⟩] :=
  ⟨(filteredProducts_spec "b"
      [⟨"Book", none, 1, 1⟩, ⟨"pen", some "blue", 2, 2⟩]).2.1 (by decide),
    (filteredProducts_spec "b"
      [⟨"Book", none, 1, 1⟩, ⟨"pen", some "blue", 2, 2⟩]).2.2⟩

/-! ### Claim C7 -/

/-- C7: the list endpoint returns every product in the store — the result is
a permutation of the table, so nothing is filtered out or paginated away —
ordered by creation time, newest first. -/
theorem list_returns_all_newest_first :
    ∀ s : Store,
      (getAllProducts s).Perm s ∧ List.Sorted newerFirst (getAllProducts s) := by
  intro s
  exact ⟨List.perm_insertionSort newerFirst s,
    List.sorted_insertionSort newerFirst s⟩

/-! ### Claim C8 -/

/-- C8: deleting an id absent from the store answers the not-found error and
changes nothing; and immediately repeating a delete of the same id always
answers the not-found error, whether or not the first call succeeded. -/
theorem delete_notfound_idempotent :
    ∀ (s : Store) (i : ℕ),
      ((∀ r ∈ s, r.id ≠ i) →
        deleteProduct s i = (.notFound "Product not found", s)) ∧
      (deleteProduct (deleteProduct s i).2 i).1 =
        .notFound "Product not found" := by
  intro s i
  constructor
  · intro h
    have hc : s.countP (fun r => r.id = i) = 0 := by
      rw [List.countP_eq_zero]
      intro r hr
      simp [h r hr]
    simp [deleteProduct, hc]
  · by_cases hc : s.countP (fun r => r.id = i) = 0
    · simp [deleteProduct, hc]
    · have h2 : (deleteProduct s i).2 = s.filter (fun r => ¬ r.id = i) := by
        simp [deleteProduct, hc]
      have hc2 : (s.filter (fun r => ¬ r.id = i)).countP (fun r => r.id = i) = 0 := by
        rw [List.countP_eq_zero]
        intro r hr
        have := (List.mem_filter.mp hr).2
        simp_all
      rw [h2]
      simp [deleteProduct, hc2]

/-- C8, witness: the statement at the empty store and at a one-row store
whose only row is deleted and then deleted again. -/
theorem delete_notfound_witness :
    deleteProduct [] 1 = (.notFound "Product not found", []) ∧
      (deleteProduct
          (deleteProduct [⟨1, "Widget", none, 10, placeholderImage, 3, 0, 0⟩] 1).2
          1).1 = .notFound "Product not found" :=
  ⟨(delete_notfound_idempotent [] 1).1 (by simp),
    (delete_notfound_idempotent
      [⟨1, "Widget", none, 10, placeholderImage, 3, 0, 0⟩] 1).2⟩

/-! ### Claim C9 -/

/-- A body the gate lets through carries all three checked fields. -/
theorem validateBody_ok_fields (b : Body) (h : validateBody b = .ok) :
    b.name.isSome ∧ b.price.isSome ∧ b.quantity.isSome := by
  obtain ⟨hn, hp, hq⟩ := (validateProduct_ok_iff _ _ _).mp h
  refine ⟨?_, ?_, ?_⟩
  · cases hb : b.name with
    | none =>
      rw [hb] at hn
      exact absurd hn (by decide)
    | some nm => simp
  · cases hb : b.price with
    | none =>
      rw [hb] at hp
      exact absurd hp (by decide)
    | some pr => simp
  · cases hb : b.quantity with
    | none =>
      rw [hb] at hq
      exact absurd hq (by decide)
    | some qt => simp

/-- C9: a create that passes validation and omits the image stores the
placeholder URL; and an insert whose body omits the quantity stores the
model default 0. -/
theorem create_defaults :
    (∀ (s : Store) (b : Body) (nextId now : ℕ),
      validateBody b = .ok → b.image = none →
      ∃ r, postProduct s b nextId now = (.created r, s ++ [r]) ∧
        r.image = placeholderImage) ∧
    (∀ (b : Body) (nextId now : ℕ),
      b.name.isSome → b.price.isSome → b.quantity = none →
      ∃ r, createRecord b nextId now = some r ∧ r.quantity = 0) := by
  constructor
  · intro s b nextId now hok himg
    obtain ⟨hn, hp, _⟩ := validateBody_ok_fields b hok
    obtain ⟨nm, hnm⟩ := Option.isSome_iff_exists.mp hn
    obtain ⟨pr, hpr⟩ := Option.isSome_iff_exists.mp hp
    refine ⟨{ id := nextId, name := nm, description := b.description, price := pr,
              image := placeholderImage, quantity := b.quantity.getD 0,
              createdAt := now, updatedAt := now }, ?_, rfl⟩
    simp [postProduct, hok, createRecord, hnm, hpr, himg]
  · intro b nextId now hn hp hq
    obtain ⟨nm, hnm⟩ := Option.isSome_iff_exists.mp hn
    obtain ⟨pr, hpr⟩ := Option.isSome_iff_exists.mp hp
    refine ⟨{ id := nextId, name := nm, description := b.description, price := pr,
              image := b.image.getD placeholderImage, quantity := 0,
              createdAt := now, updatedAt := now }, ?_, rfl⟩
    simp [createRecord, hnm, hpr, hq]

/-- C9, witness: a concrete valid create without an image gets the
placeholder, and a concrete insert without a quantity gets 0. -/
theorem create_defaults_witness :
    (∃ r, postProduct []
        { name := some "Widget", description := none, price := some 10,
          image := none, quantity := some 3 } 1 7 = (.created r, [] ++ [r]) ∧
        r.image = placeholderImage) ∧
    (∃ r, createRecord
        { name := some "Widget", description := none, price := some 10,
          image := none, quantity := none } 1 7 = some r ∧ r.quantity = 0) :=
  ⟨create_defaults.1 []
      { name := some "Widget", description := none, price := some 10,
        image := none, quantity := some 3 } 1 7 (by decide) rfl,
    create_defaults.2
      { name := some "Widget", description := none, price := some 10,
        image := none, quantity := none } 1 7 (by decide) (by decide) rfl⟩

/-! ### Claim C1 -/

/-- Updating the rows matching an id and then filtering for that id is
filtering first and updating after, provided the update preserves ids. -/
theorem filter_map_ite (f : StoredProduct → StoredProduct)
    (hf : ∀ x, (f x).id = x.id) (i : ℕ) :
    ∀ s : List StoredProduct,
      (s.map (fun x => if x.id = i then f x else x)).filter
          (fun x => x.id = i) =
        (s.filter (fun x => x.id = i)).map f := by
  intro s
  induction s with
  | nil => simp
  | cons a as ih =>
    by_cases ha : a.id = i
    · simp [ha, hf, ih]
    · simp [ha, ih]

/-- C1, counterexample: on a store containing the target id, the partial
payload `{quantity: 1}` is stopped by the validation middleware with a 400
carrying the name and price violations — the update does not succeed with
200 and the store is untouched. -/
theorem partial_update_rejected :
    putProduct [⟨1, "Widget", none, 10, placeholderImage, 3, 0, 0⟩] 1
        { quantity := some 1 } 5 =
      (.badRequest [nameMsg, priceMsg],
        [⟨1, "Widget", none, 10, placeholderImage, 3, 0, 0⟩]) ∧
      (ApiResponse.badRequest [nameMsg, priceMsg]).status = 400 := by decide

/-- C1, amended: a body carrying only `{quantity: 1}` is always rejected
with 400 and the name and price violations, leaving the store unchanged;
an update on an existing id whose body passes validation and sets quantity
to 1 answers 200 with the updated row: quantity is now 1, the fields absent
from the body (description, image) and `createdAt` and `id` are unchanged,
and `updatedAt` is refreshed. -/
theorem update_partial_then_full :
    (∀ (s : Store) (i now : ℕ),
      putProduct s i { quantity := some 1 } now =
        (.badRequest [nameMsg, priceMsg], s)) ∧
    (∀ (s : Store) (r : StoredProduct) (i now : ℕ) (b : Body),
      s.filter (fun x => x.id = i) = [r] →
      validateBody b = .ok → b.quantity = some 1 →
      b.description = none → b.image = none →
      putProduct s i b now =
        (.okProduct (applyBody r b now),
          s.map (fun x => if x.id = i then applyBody x b now else x)) ∧
      (applyBody r b now).quantity = 1 ∧
      (applyBody r b now).image = r.image ∧
      (applyBody r b now).description = r.description ∧
      (applyBody r b now).createdAt = r.createdAt ∧
      (applyBody r b now).id = r.id ∧
      (applyBody r b now).updatedAt = now) := by
  constructor
  · intro s i now
    have hgate : validateBody { quantity := some 1 } =
        .reject 400 [nameMsg, priceMsg] := by decide
    simp [putProduct, hgate]
  · intro s r i now b hfil hok hq hd him
    have hcount : s.countP (fun x => x.id = i) = 1 := by
      rw [List.countP_eq_length_filter, hfil]
      rfl
    have hne : s.countP (fun x => x.id = i) ≠ 0 := by
      rw [hcount]
      decide
    have hmap : (s.map (fun x => if x.id = i then applyBody x b now else x)).filter
        (fun x => x.id = i) = [applyBody r b now] := by
      rw [filter_map_ite (fun x => applyBody x b now) (fun x => rfl) i s, hfil]
      rfl
    have hfind : findByPk
        (s.map (fun x => if x.id = i then applyBody x b now else x)) i =
        some (applyBody r b now) := by
      rw [findByPk, hmap]
      rfl
    refine ⟨?_, ?_, ?_, ?_, ?_, ?_, ?_⟩
    · simp [putProduct, hok, hne, hfind]
    · simp [applyBody, hq]
    · simp [applyBody, him]
    · simp [applyBody, hd]
    · rfl
    · rfl
    · rfl

/-- C1, witness: both halves at a concrete one-row store: the bare
`{quantity: 1}` body is rejected, and a full valid body with quantity 1
updates the row in place. -/
theorem update_partial_then_full_witness :
    putProduct [⟨1, "Widget", none, 10, placeholderImage, 3, 0, 0⟩] 1
        { quantity := some 1 } 5 =
      (.badRequest [nameMsg, priceMsg],
        [⟨1, "Widget", none, 10, placeholderImage, 3, 0, 0⟩]) ∧
    (putProduct [⟨1, "Widget", none, 10, placeholderImage, 3, 0, 0⟩] 1
          { name := some "Widget", description := none, price := some 10,
            image := none, quantity := some 1 } 5 =
        (.okProduct (applyBody ⟨1, "Widget", none, 10, placeholderImage, 3, 0, 0⟩
            { name := some "Widget", description := none, price := some 10,
              image := none, quantity := some 1 } 5),
          [⟨1, "Widget", none, 10, placeholderImage, 3, 0, 0⟩].map
            (fun x => if x.id = 1 then applyBody x
              { name := some "Widget", description := none, price := some 10,
                image := none, quantity := some 1 } 5 else x)) ∧
      (applyBody ⟨1, "Widget", none, 10, placeholderImage, 3, 0, 0⟩
          { name := some "Widget", description := none, price := some 10,
            image := none, quantity := some 1 } 5).quantity = 1 ∧
      (applyBody ⟨1, "Widget", none, 10, placeholderImage, 3, 0, 0⟩
          { name := some "Widget", description := none, price := some 10,
            image := none, quantity := some 1 } 5).image = placeholderImage ∧
      (applyBody ⟨1, "Widget", none, 10, placeholderImage, 3, 0, 0⟩
          { name := some "Widget", description := none, price := some 10,
            image := none, quantity := some 1 } 5).description = none ∧
      (applyBody ⟨1, "Widget", none, 10, placeholderImage, 3, 0, 0⟩
          { name := some "Widget", description := none, price := some 10,
            image := none, quantity := some 1 } 5).createdAt = 0 ∧
      (applyBody ⟨1, "Widget", none, 10, placeholderImage, 3, 0, 0⟩
          { name := some "Widget", description := none, price := some 10,
            image := none, quantity := some 1 } 5).id = 1 ∧
      (applyBody ⟨1, "Widget", none, 10, placeholderImage, 3, 0, 0⟩
          { name := some "Widget", description := none, price := some 10,
            image := none, quantity := some 1 } 5).updatedAt = 5) :=
  ⟨update_partial_then_full.1 [⟨1, "Widget", none, 10, placeholderImage, 3, 0, 0⟩] 1 5,
    update_partial_then_full.2 [⟨1, "Widget", none, 10, placeholderImage, 3, 0, 0⟩]
      ⟨1, "Widget", none, 10, placeholderImage, 3, 0, 0⟩ 1 5
      { name := some "Widget", description := none, price := some 10,
        image := none, quantity := some 1 } (by decide) (by decide) rfl rfl rfl⟩

end Inventory
